import Mathlib

/-!
Verification development for the MySQL data-warehouse ETL repository.

The repository consists of five Python programs:
  * `etl_scheduler.py`   — the pipeline orchestrator (`run_daily_pipeline`, `run_script`);
  * `run_bronze_load.py` — the incremental bronze loader (staging-table upsert protocol,
    with an `etl_log` audit table written by `log_etl_start` / `log_etl_end`);
  * `run_silver_load.py` — the silver transformation runner (`execute_silver_load`);
  * `run_gold_load.py`   — the transactional gold batch executor (`execute_gold_load`);
  * `data_generator.py`  — out of scope for these claims.

This file shallowly embeds the control flow and database effects of those programs:
databases are association lists of rows, process exit codes are naturals, raised
exceptions are modelled by environment flags describing which fallible operation
fails, and observable side effects (commits, rollbacks, truncates, loads, merges)
are recorded in explicit event traces.  Wall-clock times are modelled as naturals.
-/

/-! ## Rows and warehouse tables -/

/-- A warehouse row: a natural-number unique key (the `ON DUPLICATE KEY` key of the
target table) together with the remaining column values, abstracted as integers. -/
structure Row where
  key : Nat
  vals : List Int
deriving DecidableEq

/-- A warehouse database fragment: tables addressed by name, as an association list. -/
def TableMap : Type := List (String × List Row)

instance : DecidableEq TableMap := by
  unfold TableMap
  infer_instance

/-- Look a table up by name; a missing table reads as empty. -/
def lookupTbl (m : TableMap) (k : String) : List Row :=
  match m with
  | [] => []
  | p :: rest => if p.1 = k then p.2 else lookupTbl rest k

/-- Overwrite (or create) the table named `k` with content `v`. -/
def setTbl (m : TableMap) (k : String) (v : List Row) : TableMap :=
  match m with
  | [] => [(k, v)]
  | p :: rest => if p.1 = k then (k, v) :: rest else p :: setTbl rest k v

theorem lookupTbl_setTbl_same (m : TableMap) (k : String) (v : List Row) :
    lookupTbl (setTbl m k v) k = v := by
  induction m with
  | nil => simp [setTbl, lookupTbl]
  | cons p rest ih =>
    by_cases h : p.1 = k
    · simp [setTbl, lookupTbl, h]
    · simp [setTbl, lookupTbl, h, ih]

/-! ## The audit log (`etl_log` table, `run_bronze_load.py` lines 73–96)

`log_etl_start` inserts a row with status "In Progress" and commits; it returns the
row identifier (`cursor.lastrowid`, modelled as one past the current row count) and
the captured start time.  `log_etl_end` computes `duration = now - start_time` and
updates the addressed row with end time, duration, final status and message, then
commits.  The `commits` counter counts `connection.commit()` calls made by the two
audit operations. -/

/-- One row of the `etl_log` audit table. -/
structure AuditRow where
  log_id : Nat
  process_name : String
  start_time : Nat
  end_time : Option Nat
  duration_sec : Option Nat
  status : String
  log_message : String
deriving DecidableEq

/-- The audit table plus a count of commits issued by audit operations. -/
structure AuditState where
  rows : List AuditRow
  commits : Nat
deriving DecidableEq

/-- Embedding of `log_etl_start` (`run_bronze_load.py` lines 73–83): insert an
"In Progress" row, commit, and return `(lastrowid, start_time)`. -/
def log_etl_start (st : AuditState) (process : String) (now : Nat) :
    AuditState × Nat × Nat :=
  let newId := st.rows.length + 1
  ({ rows := st.rows ++
      [{ log_id := newId, process_name := process, start_time := now,
         end_time := none, duration_sec := none, status := "In Progress",
         log_message := "Bronze load started." }],
     commits := st.commits + 1 },
   newId, now)

/-- Embedding of `log_etl_end` (`run_bronze_load.py` lines 85–96): compute the
duration from the passed start time, update the addressed row, and commit. -/
def log_etl_end (st : AuditState) (logId startT now : Nat) (status msg : String) :
    AuditState :=
  { rows := st.rows.map (fun r =>
      if r.log_id = logId then
        { r with end_time := some now, duration_sec := some (now - startT),
                 status := status, log_message := msg }
      else r),
    commits := st.commits + 1 }

/-! ## The upsert merge (`run_bronze_load.py` lines 212–229)

The merge statement is `INSERT INTO t SELECT * FROM stg_t ON DUPLICATE KEY UPDATE
col = VALUES(col), ...`.  A staged row whose key is new is appended; a staged row
whose key already exists has every declared column overwritten with the staged
value.  The rows-affected contribution follows MySQL's affected-rows semantics
for this statement (mysql-connector does not request CLIENT_FOUND_ROWS): 1 for a
newly inserted row, 2 for a key collision whose update changes the row, and 0
for a key collision whose staged values already equal the existing row — the
idempotent re-load case.  The source's own comment ("rowcount is 1 for a new
insert, 2 for an update") describes only the first two cases. -/

/-- Upsert one staged row into a target table, returning the new table content and
that row's contribution to `cursor.rowcount`. -/
def upsertRow (t : List Row) (r : Row) : List Row × Nat :=
  if t.any (fun x => x.key == r.key) then
    (t.map (fun x => if x.key == r.key then { x with vals := r.vals } else x),
     if t.any (fun x => x.key == r.key && x.vals != r.vals) then 2 else 0)
  else
    (t ++ [r], 1)

/-- Merge a whole staging table into a target table, accumulating the
rows-affected count exactly as `cursor.rowcount` reports it for the upsert. -/
def mergeStaging (t : List Row) (stg : List Row) : List Row × Nat :=
  match stg with
  | [] => (t, 0)
  | r :: rest =>
    let u := upsertRow t r
    let m := mergeStaging u.1 rest
    (m.1, u.2 + m.2)

/-! ## The bronze incremental loader (`run_bronze_load.py` `main`, lines 100–264)

The loader connects, writes the audit begin record, then for each configured
table in order: truncates its staging table, bulk-loads the table's source file
into staging, upserts staging into the target table, and commits that table's
changes before moving on.  On success it writes a "Success" audit end record;
on a MySQL error it writes an "Error" end record only when the connection is
still live (`if log_id and connection and connection.is_connected()`), and the
process exits with code 1.  There is no `rollback()` call anywhere in the file.

Error injection: `BronzeEnv.errorAt = some i` means a MySQL error is raised
while processing the `i`-th table (before any of that table's effects apply);
`connectedAtError` is the value of `connection.is_connected()` inside the
`except` handler. -/

/-- One entry of `tables_to_load`: a target table name paired with the parsed
content of its source file (the rows after the skipped header line). -/
structure LoadSpec where
  name : String
  file : List Row
deriving DecidableEq

/-- The database state seen by the bronze loader: the audit table plus the
staging and target warehouse tables.  Staging table names are derived from the
target name by the fixed `stg_` prefix, so staging tables are addressed here by
their target's name. -/
structure DBState where
  audit : AuditState
  staging : TableMap
  target : TableMap
deriving DecidableEq

/-- A fully empty database. -/
def emptyDB : DBState :=
  { audit := { rows := [], commits := 0 }, staging := [], target := [] }

/-- Observable events of one bronze run, in program order. -/
inductive BEvent
  | truncateStg (t : String)
  | loadStg (t : String)
  | mergeTbl (t : String)
  | commit (t : String)
  | auditBeginCommit
  | auditEndCommit
  | rollback
deriving DecidableEq

/-- The four statements executed for one table, ending with that table's commit
(`run_bronze_load.py` lines 192–233). -/
def tableEvents (spec : LoadSpec) : List BEvent :=
  [BEvent.truncateStg spec.name, BEvent.loadStg spec.name,
   BEvent.mergeTbl spec.name, BEvent.commit spec.name]

/-- Flattened event lists of a run over a list of tables. -/
def eventsOfTables : List LoadSpec → List BEvent
  | [] => []
  | spec :: rest => tableEvents spec ++ eventsOfTables rest

/-- One table's workflow (truncate staging, load file into staging, merge
staging into target), returning the updated database and the merge's
rows-affected count.  The truncate empties staging before the load, so the
merge always reads exactly the rows loaded from the file in this cycle. -/
def processTable (db : DBState) (spec : LoadSpec) : DBState × Nat :=
  let afterTruncate : DBState :=
    { db with staging := setTbl db.staging spec.name [] }
  let afterLoad : DBState :=
    { afterTruncate with staging := setTbl afterTruncate.staging spec.name spec.file }
  let merged := mergeStaging (lookupTbl afterLoad.target spec.name)
                             (lookupTbl afterLoad.staging spec.name)
  ({ afterLoad with target := setTbl afterLoad.target spec.name merged.1 }, merged.2)

/-- Result of the per-table loop: final database, emitted events, accumulated
rows-affected total, and whether the loop ran to completion without a raised
MySQL error. -/
structure LoopResult where
  db : DBState
  events : List BEvent
  total : Nat
  ok : Bool
deriving DecidableEq

/-- The `for table_config in tables_to_load` loop of `run_bronze_load.py`
(lines 180–238).  `errorAt = some i` raises a MySQL error at iteration `i`
(counted from the `idx` argument), aborting the loop with `ok := false`. -/
def runTables (errorAt : Option Nat) :
    List LoadSpec → Nat → DBState → LoopResult
  | [], _, db => { db := db, events := [], total := 0, ok := true }
  | spec :: rest, idx, db =>
    if errorAt = some idx then
      { db := db, events := [], total := 0, ok := false }
    else
      let p := processTable db spec
      let r := runTables errorAt rest (idx + 1) p.1
      { db := r.db, events := tableEvents spec ++ r.events,
        total := p.2 + r.total, ok := r.ok }

/-- Environment of one bronze run: whether `.env` reading succeeds, whether the
connection is established, where (if anywhere) a MySQL error is raised in the
table loop, and whether the connection is still connected inside the error
handler. -/
structure BronzeEnv where
  configOk : Bool
  connectOk : Bool
  errorAt : Option Nat
  connectedAtError : Bool
deriving DecidableEq

/-- Outcome of one bronze process run: final database, process exit code, and
the trace of executed statements and commits. -/
structure BronzeResult where
  db : DBState
  exitCode : Nat
  trace : List BEvent
deriving DecidableEq

/-- Success message written to the audit log (content abbreviated). -/
def successMessage : String := "All tables processed successfully."

/-- The database state right after the audit begin record of the bronze run has
been written and committed. -/
def dbAfterBegin (db0 : DBState) : DBState :=
  { db0 with audit := (log_etl_start db0.audit "bronze_incremental_load" 0).1 }

/-- Embedding of `main` in `run_bronze_load.py` (lines 100–264).  Config or
connection failure exits 1 before any database write.  Otherwise the audit
begin record is written, the table loop runs, and the run ends with a
"Success" end record and exit 0, or — on a MySQL error — exit 1 with an
"Error" end record written only if the connection is still connected. -/
def bronzeMain (env : BronzeEnv) (specs : List LoadSpec) (db0 : DBState) :
    BronzeResult :=
  if env.configOk = false then { db := db0, exitCode := 1, trace := [] }
  else if env.connectOk = false then { db := db0, exitCode := 1, trace := [] }
  else
    let b := log_etl_start db0.audit "bronze_incremental_load" 0
    let db1 := dbAfterBegin db0
    let r := runTables env.errorAt specs 0 db1
    if r.ok then
      { db := { r.db with
          audit := log_etl_end r.db.audit b.2.1 b.2.2 0 "Success" successMessage },
        exitCode := 0,
        trace := BEvent.auditBeginCommit :: r.events ++ [BEvent.auditEndCommit] }
    else if env.connectedAtError then
      { db := { r.db with
          audit := log_etl_end r.db.audit b.2.1 b.2.2 0 "Error" "MySQL Error" },
        exitCode := 1,
        trace := BEvent.auditBeginCommit :: r.events ++ [BEvent.auditEndCommit] }
    else
      { db := r.db, exitCode := 1, trace := BEvent.auditBeginCommit :: r.events }

/-! ## The pipeline orchestrator (`etl_scheduler.py` `run_daily_pipeline`, lines 55–88)

The orchestrator invokes `run_script` on `data_generator.py`, then — only if that
reported success — on `run_bronze_load.py`, then — only if that reported success —
on `run_silver_load.py`.  No other script is invoked; in particular the gold
loader is not part of the orchestrated sequence. -/

/-- The pipeline stages named by the specification. -/
inductive Stage
  | generate
  | bronzeLoad
  | silverLoad
  | goldLoad
deriving DecidableEq

/-- Embedding of `run_daily_pipeline`: given each stage script's success flag,
return the list of stages actually invoked, in invocation order. -/
def run_daily_pipeline (ok : Stage → Bool) : List Stage :=
  if ok Stage.generate = false then [Stage.generate]
  else if ok Stage.bronzeLoad = false then [Stage.generate, Stage.bronzeLoad]
  else [Stage.generate, Stage.bronzeLoad, Stage.silverLoad]

/-! ## The silver and gold SQL stage executors

Both `run_silver_load.py` and `run_gold_load.py` read one SQL file and execute
its statements in file order via `cursor.execute(sql_script, multi=True)`,
inspecting each statement's result (`with_rows`, `rowcount`) only for printing.
A raised `mysql.connector.Error` stops the iteration; with no error, one
`connection.commit()` follows the last statement.

They differ in their error handler: the gold executor calls `sys.exit(1)`
inside `except Error`, the silver executor does not — after printing and
rolling back it falls through and the process exits 0. -/

/-- One SQL statement of the batch: its observable result shape and whether
executing it raises a `mysql.connector.Error`. -/
structure SqlStmt where
  withRows : Bool
  rowcount : Nat
  fails : Bool
deriving DecidableEq

/-- Observable events of a SQL stage run. -/
inductive SqlEvent
  | stmt (i : Nat)
  | commit
  | rollback
deriving DecidableEq

/-- Number of occurrences of an event in a trace. -/
def countEv (e : SqlEvent) : List SqlEvent → Nat
  | [] => 0
  | x :: xs => (if x = e then 1 else 0) + countEv e xs

/-- The `for result in cursor.execute(sql_script, multi=True)` loop: execute
statements in order until one raises; return the executed-statement events and
whether every statement executed without error.  Whether execution continues
depends only on `fails`, never on `withRows` or `rowcount`. -/
def runStmts : List SqlStmt → Nat → List SqlEvent × Bool
  | [], _ => ([], true)
  | s :: rest, i =>
    if s.fails then ([], false)
    else
      let r := runStmts rest (i + 1)
      (SqlEvent.stmt i :: r.1, r.2)

/-- Environment of one silver or gold run: credentials present, connection
established, SQL file present, the batch's statements, and the value of
`connection.is_connected()` inside the error handler. -/
structure SqlStageEnv where
  credsOk : Bool
  connectOk : Bool
  fileExists : Bool
  stmts : List SqlStmt
  connectedAtError : Bool
deriving DecidableEq

/-- Outcome of a gold run: process exit code and event trace. -/
structure GoldResult where
  exitCode : Nat
  events : List SqlEvent
deriving DecidableEq

/-- Embedding of `execute_gold_load` (`run_gold_load.py` lines 23–74).
Missing credentials: `sys.exit(1)` before connecting.  A connect error is a
`mysql.connector.Error` caught with `connection` still unusable, so no
rollback, exit 1.  A missing SQL file raises `FileNotFoundError`, which the
`except Error` clause does not catch: the exception propagates and the
interpreter exits 1.  A statement error leads to `connection.rollback()` —
but only under `if connection and connection.is_connected()` — then
`sys.exit(1)`.  With no error, exactly one commit is issued and the process
exits 0. -/
def execute_gold_load (env : SqlStageEnv) : GoldResult :=
  if env.credsOk = false then { exitCode := 1, events := [] }
  else if env.connectOk = false then { exitCode := 1, events := [] }
  else if env.fileExists = false then { exitCode := 1, events := [] }
  else
    let r := runStmts env.stmts 0
    if r.2 then { exitCode := 0, events := r.1 ++ [SqlEvent.commit] }
    else if env.connectedAtError then
      { exitCode := 1, events := r.1 ++ [SqlEvent.rollback] }
    else { exitCode := 1, events := r.1 }

/-- Outcome of a silver run: exit code, event trace, and whether the stage's
work actually failed (a raised error anywhere). -/
structure SilverResult where
  exitCode : Nat
  events : List SqlEvent
  failed : Bool
deriving DecidableEq

/-- Embedding of `execute_silver_load` (`run_silver_load.py` lines 29–82).
Identical to the gold executor except in the `except Error` handler, which
prints and rolls back but never calls `sys.exit`: after a caught
`mysql.connector.Error` (failed connection or failed statement) the function
returns normally and the process exits 0. -/
def execute_silver_load (env : SqlStageEnv) : SilverResult :=
  if env.credsOk = false then { exitCode := 1, events := [], failed := true }
  else if env.connectOk = false then { exitCode := 0, events := [], failed := true }
  else if env.fileExists = false then { exitCode := 1, events := [], failed := true }
  else
    let r := runStmts env.stmts 0
    if r.2 then { exitCode := 0, events := r.1 ++ [SqlEvent.commit], failed := false }
    else if env.connectedAtError then
      { exitCode := 0, events := r.1 ++ [SqlEvent.rollback], failed := true }
    else { exitCode := 0, events := r.1, failed := true }

/-! ## The stage runner (`etl_scheduler.py` `run_script`, lines 27–53)

`run_script` calls `subprocess.run(..., check=True)`, which raises
`CalledProcessError` on a non-zero exit, or `FileNotFoundError` (an `OSError`)
when the script cannot be located or started.  The first `except` clause
catches `CalledProcessError`; the second catches every remaining `Exception`.
Every path returns a boolean — the function never lets an exception escape. -/

/-- What happens when the orchestrator spawns a stage script. -/
inductive SpawnResult
  | exited (code : Nat)
  | notFound
  | failure
deriving DecidableEq

/-- Python exceptions relevant to `run_script`. -/
inductive PyExc
  | calledProcessError (code : Nat)
  | fileNotFound
  | other
deriving DecidableEq

/-- Embedding of `subprocess.run([...], check=True)`: returns normally only on
exit code 0, raises `CalledProcessError` on a non-zero exit, and raises another
exception when the process cannot be started. -/
def subprocessRun (r : SpawnResult) : Except PyExc Nat :=
  match r with
  | SpawnResult.exited 0 => Except.ok 0
  | SpawnResult.exited (c + 1) => Except.error (PyExc.calledProcessError (c + 1))
  | SpawnResult.notFound => Except.error PyExc.fileNotFound
  | SpawnResult.failure => Except.error PyExc.other

/-- Embedding of `run_script`: `Except.ok true` models `return True`,
`Except.ok false` models `return False` from either `except` clause; an
`Except.error` value would model an escaped exception — no branch produces
one. -/
def run_script (r : SpawnResult) : Except PyExc Bool :=
  match subprocessRun r with
  | Except.ok _ => Except.ok true
  | Except.error (PyExc.calledProcessError _) => Except.ok false
  | Except.error _ => Except.ok false

/-! ## Helper lemmas -/

theorem listMapNoop {α : Type} (f : α → α) (l : List α) (h : ∀ x ∈ l, f x = x) :
    l.map f = l := by
  induction l with
  | nil => rfl
  | cons x xs ih =>
    simp only [List.map_cons]
    rw [h x (by simp), ih (fun y hy => h y (by simp [hy]))]

theorem processTable_audit (db : DBState) (spec : LoadSpec) :
    (processTable db spec).1.audit = db.audit := by
  simp [processTable]

theorem runTables_audit (errorAt : Option Nat) (specs : List LoadSpec) :
    ∀ (idx : Nat) (db : DBState),
      (runTables errorAt specs idx db).db.audit = db.audit := by
  induction specs with
  | nil => intro idx db; rfl
  | cons spec rest ih =>
    intro idx db
    by_cases h : errorAt = some idx
    · simp [runTables, h]
    · simp [runTables, h, ih, processTable]

theorem runTables_none_ok (specs : List LoadSpec) :
    ∀ (idx : Nat) (db : DBState), (runTables none specs idx db).ok = true := by
  induction specs with
  | nil => intro idx db; rfl
  | cons spec rest ih => intro idx db; simp [runTables, ih]

theorem runTables_none_events (specs : List LoadSpec) :
    ∀ (idx : Nat) (db : DBState),
      (runTables none specs idx db).events = eventsOfTables specs := by
  induction specs with
  | nil => intro idx db; rfl
  | cons spec rest ih => intro idx db; simp [runTables, eventsOfTables, ih]

theorem rollback_not_in_eventsOfTables (specs : List LoadSpec) :
    BEvent.rollback ∉ eventsOfTables specs := by
  induction specs with
  | nil => simp [eventsOfTables]
  | cons spec rest ih => simp [eventsOfTables, tableEvents, ih]

theorem auditEnd_not_in_eventsOfTables (specs : List LoadSpec) :
    BEvent.auditEndCommit ∉ eventsOfTables specs := by
  induction specs with
  | nil => simp [eventsOfTables]
  | cons spec rest ih => simp [eventsOfTables, tableEvents, ih]

theorem runTables_err (n : Nat) (specs : List LoadSpec) :
    ∀ (idx : Nat) (db : DBState), idx ≤ n →
      runTables (some n) specs idx db =
        if n - idx < specs.length then
          { runTables none (specs.take (n - idx)) idx db with ok := false }
        else runTables none specs idx db := by
  induction specs with
  | nil =>
    intro idx db _
    simp [runTables]
  | cons spec rest ih =>
    intro idx db hle
    by_cases heq : idx = n
    · subst heq
      simp [runTables, Nat.sub_self]
    · have hne : ¬ (some n = some idx) := by
        intro hcontra
        exact heq (Option.some.inj hcontra).symm
      obtain ⟨k, hk1, hk2⟩ : ∃ k, n - idx = k + 1 ∧ n - (idx + 1) = k :=
        ⟨n - idx - 1, by omega, by omega⟩
      by_cases hrest : n - (idx + 1) < rest.length
      · have hlen : n - idx < (spec :: rest).length := by simp; omega
        have hih := ih (idx + 1) (processTable db spec).1 (by omega)
        rw [if_pos hrest, hk2] at hih
        rw [if_pos hlen, hk1, List.take_succ_cons]
        simp [runTables, hne, hih]
      · have hlen : ¬ (n - idx < (spec :: rest).length) := by simp; omega
        have hih := ih (idx + 1) (processTable db spec).1 (by omega)
        rw [if_neg hrest] at hih
        rw [if_neg hlen]
        simp [runTables, hne, hih]

theorem runStmts_ok_iff (stmts : List SqlStmt) :
    ∀ i, (runStmts stmts i).2 = true ↔ ∀ s ∈ stmts, s.fails = false := by
  induction stmts with
  | nil => intro i; simp [runStmts]
  | cons s rest ih =>
    intro i
    by_cases h : s.fails = true
    · simp [runStmts, h, List.forall_mem_cons]
    · simp only [Bool.not_eq_true] at h
      simp [runStmts, h, ih (i + 1), List.forall_mem_cons]

theorem runStmts_no_commit_rollback (stmts : List SqlStmt) :
    ∀ i, SqlEvent.commit ∉ (runStmts stmts i).1 ∧
      SqlEvent.rollback ∉ (runStmts stmts i).1 := by
  induction stmts with
  | nil => intro i; simp [runStmts]
  | cons s rest ih =>
    intro i
    by_cases h : s.fails = true
    · simp [runStmts, h]
    · simp only [Bool.not_eq_true] at h
      simp [runStmts, h, ih (i + 1)]

theorem runStmts_fails_congr :
    ∀ (l l' : List SqlStmt), l.map SqlStmt.fails = l'.map SqlStmt.fails →
      ∀ i, runStmts l i = runStmts l' i := by
  intro l
  induction l with
  | nil =>
    intro l' h i
    cases l' with
    | nil => rfl
    | cons s' rest' => simp at h
  | cons s rest ih =>
    intro l' h i
    cases l' with
    | nil => simp at h
    | cons s' rest' =>
      simp only [List.map_cons, List.cons.injEq] at h
      obtain ⟨h1, h2⟩ := h
      simp only [runStmts, ← h1]
      cases hf : s.fails with
      | true => simp
      | false => simp [ih rest' h2 (i + 1)]

theorem countEv_append (e : SqlEvent) (l1 l2 : List SqlEvent) :
    countEv e (l1 ++ l2) = countEv e l1 + countEv e l2 := by
  induction l1 with
  | nil => simp [countEv]
  | cons x xs ih => simp [countEv, ih]; omega

theorem countEv_eq_zero (e : SqlEvent) (l : List SqlEvent) (h : e ∉ l) :
    countEv e l = 0 := by
  induction l with
  | nil => rfl
  | cons x xs ih =>
    simp only [List.mem_cons, not_or] at h
    simp [countEv, ih h.2, Ne.symm h.1]

/-- Normal form of a bronze run whose table loop raises at table `n` with the
connection still connected: the first `n` tables are fully processed, the audit
end record "Error" is written, and the process exits 1. -/
theorem bronzeMain_err_live (env : BronzeEnv) (specs : List LoadSpec)
    (db0 : DBState) (n : Nat)
    (hc : env.configOk = true) (hk : env.connectOk = true)
    (he : env.errorAt = some n) (hn : n < specs.length)
    (hlive : env.connectedAtError = true) :
    bronzeMain env specs db0 =
      { db := { (runTables none (specs.take n) 0 (dbAfterBegin db0)).db with
          audit := log_etl_end
            (runTables none (specs.take n) 0 (dbAfterBegin db0)).db.audit
            (db0.audit.rows.length + 1) 0 0 "Error" "MySQL Error" },
        exitCode := 1,
        trace := BEvent.auditBeginCommit :: eventsOfTables (specs.take n) ++
          [BEvent.auditEndCommit] } := by
  have hr := runTables_err n specs 0 (dbAfterBegin db0) (Nat.zero_le n)
  rw [Nat.sub_zero, if_pos hn] at hr
  simp [bronzeMain, hc, hk, he, hlive, hr, runTables_none_events, log_etl_start]

/-- Normal form of a bronze run whose table loop raises at table `n` with the
connection already dead: the first `n` tables are fully processed, no audit end
record is written, and the process exits 1. -/
theorem bronzeMain_err_dead (env : BronzeEnv) (specs : List LoadSpec)
    (db0 : DBState) (n : Nat)
    (hc : env.configOk = true) (hk : env.connectOk = true)
    (he : env.errorAt = some n) (hn : n < specs.length)
    (hdead : env.connectedAtError = false) :
    bronzeMain env specs db0 =
      { db := (runTables none (specs.take n) 0 (dbAfterBegin db0)).db,
        exitCode := 1,
        trace := BEvent.auditBeginCommit :: eventsOfTables (specs.take n) } := by
  have hr := runTables_err n specs 0 (dbAfterBegin db0) (Nat.zero_le n)
  rw [Nat.sub_zero, if_pos hn] at hr
  simp [bronzeMain, hc, hk, he, hdead, hr, runTables_none_events, log_etl_start]

/-- Sample rows and table specs reused by concrete witnesses. -/
def rowA : Row := { key := 1, vals := [10] }

def rowB : Row := { key := 2, vals := [20] }

def specA : LoadSpec := { name := "crm_cust_info", file := [rowA] }

def specB : LoadSpec := { name := "crm_prd_info", file := [rowB] }

/-! ## Claim theorems -/

/-- C1 counterexample: in the run where every invoked stage reports success, the
orchestrator invokes generate, bronze-load and silver-load only — the invoked-stage
list is not the four-stage list the claim asserts, and gold-load is never
invoked. -/
theorem pipeline_gold_not_invoked_cex :
    run_daily_pipeline (fun _ => true) =
      [Stage.generate, Stage.bronzeLoad, Stage.silverLoad] ∧
    Stage.goldLoad ∉ run_daily_pipeline (fun _ => true) ∧
    run_daily_pipeline (fun _ => true) ≠
      [Stage.generate, Stage.bronzeLoad, Stage.silverLoad, Stage.goldLoad] := by
  refine ⟨rfl, by decide, by decide⟩

/-- C1 (amended): in every run of the orchestrator, gold-load is never invoked;
when each invoked stage reports success the orchestrator invokes exactly
generate, bronze-load and silver-load, once each, in that fixed order; and each
stage is invoked only after every earlier stage has reported success. -/
theorem pipeline_three_stage_order (ok : Stage → Bool) :
    Stage.goldLoad ∉ run_daily_pipeline ok ∧
    ((∀ s ∈ run_daily_pipeline ok, ok s = true) →
      run_daily_pipeline ok = [Stage.generate, Stage.bronzeLoad, Stage.silverLoad]) ∧
    (Stage.bronzeLoad ∈ run_daily_pipeline ok → ok Stage.generate = true) ∧
    (Stage.silverLoad ∈ run_daily_pipeline ok →
      ok Stage.generate = true ∧ ok Stage.bronzeLoad = true) ∧
    (run_daily_pipeline ok).Nodup := by
  cases hg : ok Stage.generate with
  | false =>
    have htr : run_daily_pipeline ok = [Stage.generate] := by
      simp [run_daily_pipeline, hg]
    rw [htr]
    refine ⟨by decide, ?_, ?_, ?_, by decide⟩
    · intro h
      have h2 := h Stage.generate (by decide)
      rw [hg] at h2
      cases h2
    · intro h
      simp at h
    · intro h
      simp at h
  | true =>
    cases hb : ok Stage.bronzeLoad with
    | false =>
      have htr : run_daily_pipeline ok = [Stage.generate, Stage.bronzeLoad] := by
        simp [run_daily_pipeline, hg, hb]
      rw [htr]
      refine ⟨by decide, ?_, fun _ => rfl, ?_, by decide⟩
      · intro h
        have h2 := h Stage.bronzeLoad (by decide)
        rw [hb] at h2
        cases h2
      · intro h
        simp at h
    | true =>
      have htr : run_daily_pipeline ok =
          [Stage.generate, Stage.bronzeLoad, Stage.silverLoad] := by
        simp [run_daily_pipeline, hg, hb]
      rw [htr]
      exact ⟨by decide, fun _ => rfl, fun _ => rfl, fun _ => ⟨rfl, rfl⟩, by decide⟩

/-- C1 witness: with every stage succeeding, the orchestrator's invoked-stage
list is generate, bronze-load, silver-load. -/
theorem pipeline_three_stage_order_witness :
    run_daily_pipeline (fun _ => true) =
      [Stage.generate, Stage.bronzeLoad, Stage.silverLoad] :=
  (pipeline_three_stage_order (fun _ => true)).2.1 (by decide)

/-- C9: the stage runner never lets an exception escape — every spawn outcome
yields an `Except.ok` boolean; the outcome is success exactly when the unit's
process exits with code 0; and a unit that cannot be located or started yields
the same failure outcome as a failing unit, not an error. -/
theorem run_script_never_raises (r : SpawnResult) :
    (∃ b, run_script r = Except.ok b) ∧
    (run_script r = Except.ok true ↔ r = SpawnResult.exited 0) ∧
    run_script SpawnResult.notFound = Except.ok false := by
  refine ⟨?_, ?_, rfl⟩
  · cases r with
    | exited c =>
      cases c with
      | zero => exact ⟨true, rfl⟩
      | succ m => exact ⟨false, rfl⟩
    | notFound => exact ⟨false, rfl⟩
    | failure => exact ⟨false, rfl⟩
  · cases r with
    | exited c =>
      cases c with
      | zero => simp [run_script, subprocessRun]
      | succ m => simp [run_script, subprocessRun]
    | notFound => simp [run_script, subprocessRun]
    | failure => simp [run_script, subprocessRun]

/-- C5 counterexample: in a merge of a staged update (key 1 already present)
and a staged insert (key 2 new), the recorded rows-affected count is 3 for 2
staged rows — an updated row contributes 2 while an inserted row contributes 1,
so insert and update are not counted identically. -/
theorem upsert_count_differs_cex :
    (upsertRow [{ key := 1, vals := [10] }] { key := 1, vals := [20] }).2 = 2 ∧
    (upsertRow [{ key := 1, vals := [10] }] { key := 2, vals := [30] }).2 = 1 ∧
    (upsertRow [{ key := 1, vals := [10] }] { key := 1, vals := [20] }).2 ≠
      (upsertRow [{ key := 1, vals := [10] }] { key := 2, vals := [30] }).2 ∧
    (mergeStaging [{ key := 1, vals := [10] }]
      [{ key := 1, vals := [20] }, { key := 2, vals := [30] }]).2 = 3 := by
  decide

/-- C5 (amended): in the merge step, inserted and updated rows are counted
differently, not identically: a staged row with a new key contributes exactly 1
to the rows-affected count; a staged row whose key collides and whose values
differ from the existing row contributes exactly 2; a staged row identical to
an existing row — the idempotent re-load case — contributes 0; and every row's
contribution is non-negative (at most 2). -/
theorem upsert_rowcount (t : List Row) (r : Row) :
    (t.any (fun x => x.key == r.key) = false → (upsertRow t r).2 = 1) ∧
    ((∃ x ∈ t, x.key = r.key ∧ x.vals ≠ r.vals) → (upsertRow t r).2 = 2) ∧
    ((∀ x ∈ t, x.key = r.key → x.vals = r.vals) →
      t.any (fun x => x.key == r.key) = true → (upsertRow t r).2 = 0) ∧
    (upsertRow t r).2 ≤ 2 := by
  refine ⟨?_, ?_, ?_, ?_⟩
  · intro h
    simp [upsertRow, h]
  · rintro ⟨x, hx, hk, hv⟩
    have hany : t.any (fun x => x.key == r.key) = true := by
      simp only [List.any_eq_true, beq_iff_eq]
      exact ⟨x, hx, hk⟩
    have hany2 : t.any (fun x => x.key == r.key && x.vals != r.vals) = true := by
      simp only [List.any_eq_true, Bool.and_eq_true, beq_iff_eq, bne_iff_ne]
      exact ⟨x, hx, hk, hv⟩
    simp [upsertRow, hany, hany2]
  · intro hall hany
    have hany2 : t.any (fun x => x.key == r.key && x.vals != r.vals) = false := by
      simp only [List.any_eq_false, Bool.and_eq_true, beq_iff_eq, bne_iff_ne,
        not_and, not_not]
      exact hall
    simp [upsertRow, hany, hany2]
  · by_cases h1 : t.any (fun x => x.key == r.key) = true
    · by_cases h2 : t.any (fun x => x.key == r.key && x.vals != r.vals) = true
      · simp [upsertRow, h1, h2]
      · simp only [Bool.not_eq_true] at h2
        simp [upsertRow, h1, h2]
    · simp only [Bool.not_eq_true] at h1
      simp [upsertRow, h1]

/-- C5 witness: re-staging a row identical to the existing target row — the
idempotent re-load — contributes 0 to the rows-affected count. -/
theorem upsert_rowcount_witness :
    (upsertRow [{ key := 1, vals := [10] }] { key := 1, vals := [10] }).2 = 0 :=
  (upsert_rowcount [{ key := 1, vals := [10] }] { key := 1, vals := [10] }).2.2.1
    (by decide) (by decide)

/-- A bronze environment in which configuration, connection and every table
load succeed. -/
def bronzeEnvOk : BronzeEnv :=
  { configOk := true, connectOk := true, errorAt := none, connectedAtError := true }

/-- A SQL-stage environment whose single statement raises an execution error
while the connection is no longer connected at handling time. -/
def sqlEnvDeadFail : SqlStageEnv :=
  { credsOk := true, connectOk := true, fileExists := true,
    stmts := [{ withRows := false, rowcount := 0, fails := true }],
    connectedAtError := false }

/-- A SQL-stage environment whose single statement raises an execution error
with the connection still connected. -/
def sqlEnvLiveFail : SqlStageEnv :=
  { credsOk := true, connectOk := true, fileExists := true,
    stmts := [{ withRows := false, rowcount := 0, fails := true }],
    connectedAtError := true }

/-- A SQL-stage environment in which the connection attempt itself raises. -/
def sqlEnvNoConnect : SqlStageEnv :=
  { credsOk := true, connectOk := false, fileExists := true,
    stmts := [], connectedAtError := false }

/-- A SQL-stage environment whose single statement executes without error. -/
def sqlEnvAllOk : SqlStageEnv :=
  { credsOk := true, connectOk := true, fileExists := true,
    stmts := [{ withRows := true, rowcount := 5, fails := false }],
    connectedAtError := true }

/-- C4 counterexample: a bronze run over one table with a one-row source file
completes successfully (merge executed, commit issued, exit code 0), yet
afterwards the table's staging table still holds the loaded row — it is not
empty after the load cycle completes, because the truncate happens only at the
start of the next cycle. -/
theorem staging_not_empty_after_cycle_cex :
    (bronzeMain bronzeEnvOk [specA] emptyDB).exitCode = 0 ∧
    lookupTbl (bronzeMain bronzeEnvOk [specA] emptyDB).db.staging "crm_cust_info" =
      [rowA] ∧
    [rowA] ≠ ([] : List Row) := by
  refine ⟨by decide, by decide, by decide⟩

/-- C4 (amended): the staging table is emptied by the truncate at the start of
its own load cycle, not after the merge: after one table's cycle the staging
table holds exactly the rows loaded from that cycle's file, and — because of the
leading truncate — the merge consumes exactly the file's rows regardless of
whatever the staging table held before the cycle. -/
theorem staging_cycle (db : DBState) (spec : LoadSpec) :
    lookupTbl (processTable db spec).1.staging spec.name = spec.file ∧
    lookupTbl (processTable db spec).1.target spec.name =
      (mergeStaging (lookupTbl db.target spec.name) spec.file).1 ∧
    (processTable db spec).2 =
      (mergeStaging (lookupTbl db.target spec.name) spec.file).2 := by
  refine ⟨?_, ?_, ?_⟩ <;> simp [processTable, lookupTbl_setTbl_same]

/-- C3: the silver loader violates the exit-code contract — a
`mysql.connector.Error` (a failed connection, or a failed statement) is caught
by a handler that never calls `sys.exit`, so the silver process exits 0 even
though its work failed, and the scheduler cannot detect the failure from the
exit status alone. -/
theorem silver_exit_zero_on_failure :
    (execute_silver_load sqlEnvNoConnect).failed = true ∧
    (execute_silver_load sqlEnvNoConnect).exitCode = 0 ∧
    (execute_silver_load sqlEnvLiveFail).failed = true ∧
    (execute_silver_load sqlEnvLiveFail).exitCode = 0 := by
  decide

/-- C6 counterexample: a gold batch whose single statement raises an execution
error while the connection is no longer connected signals failure (exit code 1)
but issues no rollback — the rollback call is guarded by
`connection.is_connected()`, so the claim's unconditional "a rollback of the
batch's changes is issued" fails at this input. -/
theorem gold_no_rollback_when_disconnected_cex :
    (execute_gold_load sqlEnvDeadFail).exitCode = 1 ∧
    SqlEvent.rollback ∉ (execute_gold_load sqlEnvDeadFail).events := by
  decide

/-- C6 (amended): for a gold batch run that reaches statement execution — if any
statement raises an execution error, failure is signalled (exit code 1), no
commit is issued, and, provided the connection is still connected at handling
time, exactly one rollback is issued (a dead connection skips the explicit
rollback call); if every statement executes without error, exactly one commit
is issued, no rollback, and success is signalled (exit code 0); and which
statements run depends only on which statements raise, never on any statement's
returned output. -/
theorem gold_batch_atomic (env : SqlStageEnv)
    (hc : env.credsOk = true) (hk : env.connectOk = true)
    (hf : env.fileExists = true) :
    ((∀ s ∈ env.stmts, s.fails = false) →
      (execute_gold_load env).exitCode = 0 ∧
      countEv SqlEvent.commit (execute_gold_load env).events = 1 ∧
      SqlEvent.rollback ∉ (execute_gold_load env).events) ∧
    ((∃ s ∈ env.stmts, s.fails = true) →
      (execute_gold_load env).exitCode = 1 ∧
      SqlEvent.commit ∉ (execute_gold_load env).events ∧
      (env.connectedAtError = true →
        countEv SqlEvent.rollback (execute_gold_load env).events = 1)) ∧
    (∀ stmts' : List SqlStmt,
      env.stmts.map SqlStmt.fails = stmts'.map SqlStmt.fails →
      execute_gold_load { env with stmts := stmts' } = execute_gold_load env) := by
  have hev := runStmts_no_commit_rollback env.stmts 0
  refine ⟨?_, ?_, ?_⟩
  · intro hall
    have hok : (runStmts env.stmts 0).2 = true := (runStmts_ok_iff env.stmts 0).mpr hall
    have hres : execute_gold_load env =
        { exitCode := 0, events := (runStmts env.stmts 0).1 ++ [SqlEvent.commit] } := by
      simp [execute_gold_load, hc, hk, hf, hok]
    rw [hres]
    refine ⟨rfl, ?_, ?_⟩
    · rw [countEv_append, countEv_eq_zero _ _ hev.1]
      simp [countEv]
    · simp [List.mem_append, hev.2]
  · intro hex
    have hok : (runStmts env.stmts 0).2 = false := by
      cases hcase : (runStmts env.stmts 0).2 with
      | false => rfl
      | true =>
        obtain ⟨s, hs, hfail⟩ := hex
        have h2 := (runStmts_ok_iff env.stmts 0).mp hcase s hs
        rw [hfail] at h2
        cases h2
    cases hconn : env.connectedAtError with
    | true =>
      have hres : execute_gold_load env =
          { exitCode := 1,
            events := (runStmts env.stmts 0).1 ++ [SqlEvent.rollback] } := by
        simp [execute_gold_load, hc, hk, hf, hok, hconn]
      rw [hres]
      refine ⟨rfl, ?_, fun _ => ?_⟩
      · simp [List.mem_append, hev.1]
      · rw [countEv_append, countEv_eq_zero _ _ hev.2]
        simp [countEv]
    | false =>
      have hres : execute_gold_load env =
          { exitCode := 1, events := (runStmts env.stmts 0).1 } := by
        simp [execute_gold_load, hc, hk, hf, hok, hconn]
      rw [hres]
      refine ⟨rfl, hev.1, fun hcontra => ?_⟩
      cases hcontra
  · intro stmts' hmap
    have hrs : runStmts env.stmts 0 = runStmts stmts' 0 :=
      runStmts_fails_congr _ _ hmap 0
    simp [execute_gold_load, hc, hk, hf, ← hrs]

/-- C6 witness: a concrete all-success batch commits once and exits 0. -/
theorem gold_batch_atomic_witness :
    (execute_gold_load sqlEnvAllOk).exitCode = 0 :=
  ((gold_batch_atomic sqlEnvAllOk rfl rfl rfl).1 (by decide)).1

/-- A bronze environment raising a MySQL error at table 0, connection live. -/
def bronzeEnvErr0Live : BronzeEnv :=
  { configOk := true, connectOk := true, errorAt := some 0, connectedAtError := true }

/-- A bronze environment raising a MySQL error at table 0, connection dead. -/
def bronzeEnvErr0Dead : BronzeEnv :=
  { configOk := true, connectOk := true, errorAt := some 0, connectedAtError := false }

/-- A bronze environment raising a MySQL error at table 1, connection live. -/
def bronzeEnvErr1Live : BronzeEnv :=
  { configOk := true, connectOk := true, errorAt := some 1, connectedAtError := true }

/-- A bronze environment whose database connection attempt fails. -/
def bronzeEnvNoConnect : BronzeEnv :=
  { configOk := true, connectOk := false, errorAt := none, connectedAtError := false }

/-- C7: in a bronze run whose table loop raises at table `n`, the process exits
1, no rollback is ever issued, the final staging and target tables are exactly
those produced by fully processing the first `n` tables (their committed
changes persist), and the trace is the audit-begin commit followed by the
per-table event blocks — truncate, load, merge, commit — of exactly the first
`n` tables in order, so each table's changes are committed before the next
table is touched. -/
theorem bronze_earlier_tables_stay_committed (env : BronzeEnv)
    (specs : List LoadSpec) (db0 : DBState) (n : Nat)
    (hc : env.configOk = true) (hk : env.connectOk = true)
    (he : env.errorAt = some n) (hn : n < specs.length) :
    (bronzeMain env specs db0).exitCode = 1 ∧
    BEvent.rollback ∉ (bronzeMain env specs db0).trace ∧
    (bronzeMain env specs db0).db.target =
      (runTables none (specs.take n) 0 (dbAfterBegin db0)).db.target ∧
    (bronzeMain env specs db0).db.staging =
      (runTables none (specs.take n) 0 (dbAfterBegin db0)).db.staging ∧
    (bronzeMain env specs db0).trace =
      BEvent.auditBeginCommit :: eventsOfTables (specs.take n) ++
        (if env.connectedAtError = true then [BEvent.auditEndCommit] else []) := by
  cases hconn : env.connectedAtError with
  | true =>
    rw [bronzeMain_err_live env specs db0 n hc hk he hn hconn]
    refine ⟨rfl, ?_, rfl, rfl, by simp⟩
    simp [rollback_not_in_eventsOfTables]
  | false =>
    rw [bronzeMain_err_dead env specs db0 n hc hk he hn hconn]
    refine ⟨rfl, ?_, rfl, rfl, by simp⟩
    simp [rollback_not_in_eventsOfTables]

/-- C7 witness: with two tables and an error at table 1, the run exits 1 (and,
by the theorem, table 0's committed load persists). -/
theorem bronze_earlier_tables_stay_committed_witness :
    (bronzeMain bronzeEnvErr1Live [specA, specB] emptyDB).exitCode = 1 :=
  (bronze_earlier_tables_stay_committed bronzeEnvErr1Live [specA, specB] emptyDB 1
    rfl rfl rfl (by decide)).1

/-- C2 counterexample: a pipeline run in which the bronze stage fails because
its database connection attempt raises — the bronze process exits 1 (so the
orchestrator sees a failed bronze stage), yet the audit log ends the run with
no rows at all: no final status "Error" is recorded anywhere, refuting the
claim that every bronze-stage failure is recorded as Error in the AuditLog. -/
theorem bronze_failure_without_error_audit_cex :
    (bronzeMain bronzeEnvNoConnect [specA] emptyDB).exitCode = 1 ∧
    (bronzeMain bronzeEnvNoConnect [specA] emptyDB).db.audit.rows = [] := by
  decide

/-- C2 (amended): when the bronze stage fails, the orchestrator never invokes
the silver or gold stage; and whenever the bronze failure is a MySQL error
raised after the audit begin record was written, with the connection still
connected at error-handling time, the audit log records final status "Error"
for the bronze process and the process exits 1.  (A failure before the begin
record, or with a dead connection, leaves no Error row — see the
counterexample.) -/
theorem bronze_fail_fast_audit (ok : Stage → Bool) (env : BronzeEnv)
    (specs : List LoadSpec) (db0 : DBState) (n : Nat)
    (hb : ok Stage.bronzeLoad = false)
    (hc : env.configOk = true) (hk : env.connectOk = true)
    (he : env.errorAt = some n) (hn : n < specs.length)
    (hlive : env.connectedAtError = true) :
    Stage.silverLoad ∉ run_daily_pipeline ok ∧
    Stage.goldLoad ∉ run_daily_pipeline ok ∧
    (bronzeMain env specs db0).exitCode = 1 ∧
    ∃ r ∈ (bronzeMain env specs db0).db.audit.rows,
      r.log_id = db0.audit.rows.length + 1 ∧
      r.process_name = "bronze_incremental_load" ∧
      r.status = "Error" := by
  have hrows : (bronzeMain env specs db0).db.audit.rows =
      db0.audit.rows.map (fun r =>
        if r.log_id = db0.audit.rows.length + 1 then
          { r with end_time := some 0, duration_sec := some 0,
                   status := "Error", log_message := "MySQL Error" }
        else r) ++
      [{ log_id := db0.audit.rows.length + 1,
         process_name := "bronze_incremental_load", start_time := 0,
         end_time := some 0, duration_sec := some 0, status := "Error",
         log_message := "MySQL Error" }] := by
    rw [bronzeMain_err_live env specs db0 n hc hk he hn hlive]
    simp [log_etl_end, dbAfterBegin, log_etl_start, runTables_audit]
  refine ⟨?_, ?_, ?_, ?_⟩
  · cases hg : ok Stage.generate <;> simp [run_daily_pipeline, hg, hb]
  · cases hg : ok Stage.generate <;> simp [run_daily_pipeline, hg, hb]
  · rw [bronzeMain_err_live env specs db0 n hc hk he hn hlive]
  · rw [hrows]
    exact ⟨_, List.mem_append_right _ (List.mem_singleton_self _), rfl, rfl, rfl⟩

/-- C2 witness: with the bronze stage failing at table 0 (connection live), the
bronze process exits 1 (and, by the theorem, silver is skipped and an Error
audit row exists). -/
theorem bronze_fail_fast_audit_witness :
    (bronzeMain bronzeEnvErr0Live [specA] emptyDB).exitCode = 1 :=
  (bronze_fail_fast_audit (fun _ => false) bronzeEnvErr0Live [specA] emptyDB 0
    rfl rfl rfl rfl (by decide) rfl).2.2.1

/-- C10: in a bronze run where a MySQL error is raised after the audit begin
record was written and the connection is no longer connected at error-handling
time, the process exits 1, no audit-end commit ever happens, and the run's
audit row permanently retains status "In Progress" with no end time. -/
theorem bronze_dead_connection_audit (env : BronzeEnv) (specs : List LoadSpec)
    (db0 : DBState) (n : Nat)
    (hc : env.configOk = true) (hk : env.connectOk = true)
    (he : env.errorAt = some n) (hn : n < specs.length)
    (hdead : env.connectedAtError = false) :
    (bronzeMain env specs db0).exitCode = 1 ∧
    BEvent.auditEndCommit ∉ (bronzeMain env specs db0).trace ∧
    ∃ r ∈ (bronzeMain env specs db0).db.audit.rows,
      r.log_id = db0.audit.rows.length + 1 ∧
      r.process_name = "bronze_incremental_load" ∧
      r.status = "In Progress" ∧ r.end_time = none := by
  have hrows : (bronzeMain env specs db0).db.audit.rows =
      db0.audit.rows ++
      [{ log_id := db0.audit.rows.length + 1,
         process_name := "bronze_incremental_load", start_time := 0,
         end_time := none, duration_sec := none, status := "In Progress",
         log_message := "Bronze load started." }] := by
    rw [bronzeMain_err_dead env specs db0 n hc hk he hn hdead]
    simp [dbAfterBegin, log_etl_start, runTables_audit]
  refine ⟨?_, ?_, ?_⟩
  · rw [bronzeMain_err_dead env specs db0 n hc hk he hn hdead]
  · rw [bronzeMain_err_dead env specs db0 n hc hk he hn hdead]
    simp [auditEnd_not_in_eventsOfTables]
  · rw [hrows]
    exact ⟨_, List.mem_append_right _ (List.mem_singleton_self _), rfl, rfl, rfl, rfl⟩

/-- C10 witness: concrete dead-connection failure at table 0 exits 1 (and, by
the theorem, the audit row stays "In Progress" forever). -/
theorem bronze_dead_connection_audit_witness :
    (bronzeMain bronzeEnvErr0Dead [specA] emptyDB).exitCode = 1 :=
  (bronze_dead_connection_audit bronzeEnvErr0Dead [specA] emptyDB 0
    rfl rfl rfl (by decide) rfl).1

/-- C8: the audit-log begin operation appends a row with status "In Progress"
and returns its identifier and the start timestamp; the end operation computes
the duration as now minus that start time and updates exactly that row with end
time, duration, final status and message, leaving all other rows unchanged; and
each of the two operations issues exactly one commit of its own, regardless of
what happens between them. -/
theorem audit_begin_end_contract (st : AuditState) (p : String) (t0 t1 : Nat)
    (status msg : String)
    (hfresh : ∀ r ∈ st.rows, r.log_id ≠ st.rows.length + 1) :
    (log_etl_start st p t0).2.1 = st.rows.length + 1 ∧
    (log_etl_start st p t0).2.2 = t0 ∧
    (log_etl_start st p t0).1.rows =
      st.rows ++
      [{ log_id := st.rows.length + 1, process_name := p, start_time := t0,
         end_time := none, duration_sec := none, status := "In Progress",
         log_message := "Bronze load started." }] ∧
    (log_etl_start st p t0).1.commits = st.commits + 1 ∧
    (log_etl_end (log_etl_start st p t0).1 (log_etl_start st p t0).2.1
        (log_etl_start st p t0).2.2 t1 status msg).rows =
      st.rows ++
      [{ log_id := st.rows.length + 1, process_name := p, start_time := t0,
         end_time := some t1, duration_sec := some (t1 - t0), status := status,
         log_message := msg }] ∧
    (log_etl_end (log_etl_start st p t0).1 (log_etl_start st p t0).2.1
        (log_etl_start st p t0).2.2 t1 status msg).commits = st.commits + 2 := by
  have hmap : st.rows.map (fun r =>
      if r.log_id = st.rows.length + 1 then
        { r with end_time := some t1, duration_sec := some (t1 - t0),
                 status := status, log_message := msg }
      else r) = st.rows :=
    listMapNoop _ st.rows (fun r hr => if_neg (hfresh r hr))
  refine ⟨rfl, rfl, rfl, rfl, ?_, ?_⟩
  · simp [log_etl_start, log_etl_end, hmap]
  · simp only [log_etl_start, log_etl_end]

/-- C8 witness: starting from an empty audit table, a begin at time 3 followed
by an end at time 10 leaves exactly two commits issued. -/
theorem audit_begin_end_contract_witness :
    (log_etl_end (log_etl_start { rows := [], commits := 0 }
        "bronze_incremental_load" 3).1
      (log_etl_start { rows := [], commits := 0 }
        "bronze_incremental_load" 3).2.1
      (log_etl_start { rows := [], commits := 0 }
        "bronze_incremental_load" 3).2.2
      10 "Success" "done").commits = 0 + 2 :=
  (audit_begin_end_contract { rows := [], commits := 0 } "bronze_incremental_load"
    3 10 "Success" "done" (by simp)).2.2.2.2.2
